import Mathlib

/-!
Shallow embedding of the prefer-early-return lint rule
(src/prefer-early-return.ts): the detector `shouldReportEarlyReturn`
and the rewriter `flattenIfElseChain` with their helper functions,
over a model of the ESTree statement and expression nodes the rule
inspects.  String-valued source text is modelled by a canonical
text accessor (`Expression.getText`, `Statement.getText`): the rule
only ever reads the text of a node through the host source-code
accessor, so the model fixes one canonical rendering per node.
-/

/-- Model of the ESTree expression nodes distinguished by the rule.
Leaf constructors carry their source text; `unaryExpression` and
`binaryExpression` carry their operator and operand nodes, as the
rule reads `condition.operator`, `condition.argument`,
`condition.left` and `condition.right`.  Every expression kind the
rule does not distinguish is `otherExpression`. -/
inductive Expression where
  | identifier (text : String)
  | memberExpression (text : String)
  | callExpression (text : String)
  | unaryExpression (operator : String) (argument : Expression)
  | binaryExpression (operator : String) (left : Expression) (right : Expression)
  | otherExpression (text : String)
deriving DecidableEq, Repr

/-- Model of the ESTree statement nodes distinguished by the rule:
return, throw, expression statement, block, if, and an opaque
`otherStatement` for every statement kind the rule only ever copies
verbatim.  `alternate = none` models a null `alternate`.
A `functionDeclaration` carries its header text and its body
statements: the rule itself never looks inside one (every check of
the rule reaches it through a catch-all, exactly as the source
switches on the statement types it names), but the body must be kept
because re-parsing rewritten code reaches the conditionals inside
it. -/
inductive Statement where
  | returnStatement (text : String)
  | throwStatement (text : String)
  | expressionStatement (expression : Expression)
  | blockStatement (body : List Statement)
  | ifStatement (test : Expression) (consequent : Statement) (alternate : Option Statement)
  | functionDeclaration (header : String) (body : List Statement)
  | otherStatement (text : String)
deriving Repr

/-- The source-text accessor for expressions (models
`sourceCode.getText(expression)`); composite nodes render
canonically from their parts. -/
def Expression.getText : Expression → String
  | .identifier t => t
  | .memberExpression t => t
  | .callExpression t => t
  | .unaryExpression op a => op ++ a.getText
  | .binaryExpression op l r => l.getText ++ " " ++ op ++ " " ++ r.getText
  | .otherExpression t => t

mutual

/-- The source-text accessor for statements (models
`sourceCode.getText(statement)`). -/
def Statement.getText : Statement → String
  | .returnStatement t => t
  | .throwStatement t => t
  | .expressionStatement e => e.getText ++ ";"
  | .blockStatement body =>
      "\x7b " ++ String.intercalate " " (Statement.getTextList body) ++ " \x7d"
  | .ifStatement t c a =>
      "if (" ++ t.getText ++ ") " ++ c.getText ++ Statement.getTextAlt a
  | .functionDeclaration h body =>
      h ++ " \x7b " ++ String.intercalate " " (Statement.getTextList body) ++ " \x7d"
  | .otherStatement t => t

/-- Text of each statement of a list, in order. -/
def Statement.getTextList : List Statement → List String
  | [] => []
  | s :: rest => Statement.getText s :: Statement.getTextList rest

/-- Text contributed by an optional else branch. -/
def Statement.getTextAlt : Option Statement → String
  | none => ""
  | some x => " else " ++ Statement.getText x

end

mutual

/-- Structural equality of statement nodes, modelling the identity
comparison `body.indexOf(node)` performs when locating a node in
its parent block. -/
def Statement.beq : Statement → Statement → Bool
  | .returnStatement a, .returnStatement b => a == b
  | .throwStatement a, .throwStatement b => a == b
  | .expressionStatement a, .expressionStatement b => a == b
  | .blockStatement a, .blockStatement b => Statement.beqList a b
  | .ifStatement t c al, .ifStatement u d bl =>
      t == u && Statement.beq c d && Statement.beqOpt al bl
  | .functionDeclaration a as, .functionDeclaration b bs =>
      a == b && Statement.beqList as bs
  | .otherStatement a, .otherStatement b => a == b
  | _, _ => false

/-- Pointwise equality of statement lists. -/
def Statement.beqList : List Statement → List Statement → Bool
  | [], [] => true
  | a :: as, b :: bs => Statement.beq a b && Statement.beqList as bs
  | _, _ => false

/-- Pointwise equality of optional statements. -/
def Statement.beqOpt : Option Statement → Option Statement → Bool
  | none, none => true
  | some a, some b => Statement.beq a b
  | _, _ => false

end

/-- Model of the parent back-reference of a visited if statement: the
code reads `node.parent.type`, `node.parent.body` and
`node.parent.parent.type`, so the model records whether the parent is
a block statement, its statement list when it is, and the type tag of
the grandparent node. -/
inductive ParentNode where
  | blockStatement (body : List Statement) (grandParentType : String)
  | other (type : String)

/-- Whether the first character list starts with the second. -/
def charsStartWith : List Char → List Char → Bool
  | _, [] => true
  | [], _ :: _ => false
  | a :: as, b :: bs => a == b && charsStartWith as bs

/-- Whether the second character list occurs inside the first. -/
def charsContain : List Char → List Char → Bool
  | [], pat => pat.isEmpty
  | c :: rest, pat => charsStartWith (c :: rest) pat || charsContain rest pat

/-- Whether `sub` occurs as a substring of `s`, modelling the
JavaScript `String.prototype.includes` call in `isFunctionNode`. -/
def strIncludes (s sub : String) : Bool :=
  charsContain s.data sub.data

/-- Embeds `getBlockStatements`: the statements of a block statement,
or the singleton list wrapping any other statement. -/
def getBlockStatements (statement : Statement) : List Statement :=
  match statement with
  | .blockStatement body => body
  | s => [s]

/-- Embeds `isFunctionNode`: the node type is one of the three
function node types or contains the substring Function. -/
def isFunctionNode (nodeType : String) : Bool :=
  nodeType == "FunctionDeclaration" ||
  nodeType == "FunctionExpression" ||
  nodeType == "ArrowFunctionExpression" ||
  strIncludes nodeType "Function"

/-- Embeds `isDirectlyInFunctionBody`: the parent is a block
statement whose own parent is a function-like node or a method
definition. -/
def isDirectlyInFunctionBody (parent : ParentNode) : Bool :=
  match parent with
  | .blockStatement _ grandParentType =>
      isFunctionNode grandParentType || grandParentType == "MethodDefinition"
  | .other _ => false

/-- Whether a statement is an if statement. -/
def Statement.isIfStmt : Statement → Bool
  | .ifStatement _ _ _ => true
  | _ => false

/-- Embeds `hasNestedIfInConsequent`: some top-level statement of the
consequent is an if statement. -/
def hasNestedIfInConsequent (consequent : Statement) : Bool :=
  (getBlockStatements consequent).any Statement.isIfStmt

/-- Embeds `isSimpleExit`: return, throw, expression statement, or a
one-statement block recursively reducing to one of these. -/
def isSimpleExit : Statement → Bool
  | .returnStatement _ => true
  | .throwStatement _ => true
  | .expressionStatement _ => true
  | .blockStatement [s] => isSimpleExit s
  | _ => false

/-- Embeds the JavaScript `body.indexOf(node)`: the index of the
first occurrence of the node, or -1 when absent. -/
def jsIndexOf (body : List Statement) (node : Statement) : Int :=
  match body.findIdx? (fun s => Statement.beq s node) with
  | some i => (i : Int)
  | none => -1

/-- Embeds `isLastStatementInBlock`: the parent is a block statement
and the index of the node in its body is the last index. -/
def isLastStatementInBlock (node : Statement) (parent : ParentNode) : Bool :=
  match parent with
  | .blockStatement body _ => jsIndexOf body node == (body.length : Int) - 1
  | .other _ => false

/-- The repeated inline test of the rule (`stmt.type === IfStatement
and stmt.alternate is non-null and isSimpleExit(stmt.alternate)`),
named once here and shared by the detector and the rewriter. -/
def Statement.isNestedIfElseExit : Statement → Bool
  | .ifStatement _ _ (some a) => isSimpleExit a
  | _ => false

/-- Embeds `shouldReportEarlyReturn`, the detector: eligibility
(directly in a function body, last statement of that block), then
Pattern 1 (alternate present: simple exit alternate and nested if in
consequent) or Pattern 2 (alternate absent: some top-level statement
of the consequent is an if whose alternate is a simple exit).
The host only dispatches it on if statements, so every other
statement returns false. -/
def shouldReportEarlyReturn (node : Statement) (parent : ParentNode) : Bool :=
  match node with
  | .ifStatement _ consequent alternate =>
      if !isDirectlyInFunctionBody parent then false
      else if !isLastStatementInBlock node parent then false
      else
        match alternate with
        | some alt => isSimpleExit alt && hasNestedIfInConsequent consequent
        | none =>
            (getBlockStatements consequent).any Statement.isNestedIfElseExit
  | _ => false

/-- Embeds `getSimpleExitStatement`: recursively unwraps
one-statement blocks. -/
def getSimpleExitStatement : Statement → Statement
  | .blockStatement [s] => getSimpleExitStatement s
  | s => s

/-- Embeds `invertCondition`: strip a top-level logical negation of a
simple reference, invert a comparison operator from the table, prefix
a bang to a simple reference, and otherwise wrap the negated text in
parentheses. -/
def invertCondition (condition : Expression) : String :=
  let conditionText := condition.getText
  match condition with
  | .unaryExpression "!" argument =>
      match argument with
      | .identifier _ => argument.getText
      | .memberExpression _ => argument.getText
      | .callExpression _ => argument.getText
      | _ => "(" ++ argument.getText ++ ")"
  | .binaryExpression "===" left right => left.getText ++ " !== " ++ right.getText
  | .binaryExpression "!==" left right => left.getText ++ " === " ++ right.getText
  | .binaryExpression "==" left right => left.getText ++ " != " ++ right.getText
  | .binaryExpression "!=" left right => left.getText ++ " == " ++ right.getText
  | .binaryExpression "<" left right => left.getText ++ " >= " ++ right.getText
  | .binaryExpression "<=" left right => left.getText ++ " > " ++ right.getText
  | .binaryExpression ">" left right => left.getText ++ " <= " ++ right.getText
  | .binaryExpression ">=" left right => left.getText ++ " < " ++ right.getText
  | .identifier _ => "!" ++ conditionText
  | .memberExpression _ => "!" ++ conditionText
  | .callExpression _ => "!" ++ conditionText
  | _ => "!(" ++ conditionText ++ ")"

/-- The operator-to-operator mapping applied by the comparison
switch of `invertCondition` (identity outside the table, where the
switch does not rewrite the operator). -/
def invertBinaryOperator : String → String
  | "===" => "!=="
  | "!==" => "==="
  | "==" => "!="
  | "!=" => "=="
  | "<" => ">="
  | "<=" => ">"
  | ">" => "<="
  | ">=" => "<"
  | op => op

/-- Embeds `convertToEarlyReturn`: unwrap single-statement blocks,
copy return and throw statements verbatim, and wrap an expression
statement into a return of the same expression. -/
def convertToEarlyReturn (statement : Statement) : String :=
  let exitStmt := getSimpleExitStatement statement
  match exitStmt with
  | .returnStatement _ => exitStmt.getText
  | .throwStatement _ => exitStmt.getText
  | .expressionStatement e => "return " ++ e.getText ++ ";"
  | _ => exitStmt.getText

/-- The index of the start of the line containing the given offset:
scans backward until a newline or the start of the text, modelling
the first loop of `getIndentation`. -/
def lineStartFrom (chars : List Char) : Nat → Nat
  | 0 => 0
  | i + 1 => if chars.get? i = some '\n' then i + 1 else lineStartFrom chars i

/-- Embeds `getIndentation`: the leading run of spaces and tabs of
the line containing the node start offset, cut off at that offset. -/
def getIndentation (sourceText : String) (start : Nat) : String :=
  let chars := sourceText.data
  let lineStart := lineStartFrom chars start
  String.mk (((chars.drop lineStart).take (start - lineStart)).takeWhile
    (fun c => c == ' ' || c == '\t'))

/-- Whether an if statement with no alternate has, at depth one of
its consequent, an if whose alternate is a simple exit (the check of
the second case of the consequent loop of the Pattern A branch of
`flattenIfElseChain`; when it fails that case re-emits the statement
exactly as the final case does, so the two cases collapse into this
predicate). -/
def Statement.isIfNoAltWithNestedExit : Statement → Bool
  | .ifStatement _ c none => (getBlockStatements c).any Statement.isNestedIfElseExit
  | _ => false

/-- Whether an if statement (with or without alternate) has, at depth
one of its consequent, an if whose alternate is a simple exit (the
check of the second case of the consequent loop of the Pattern B
branch of `flattenIfElseChain`, which applies to every if statement
that did not match the first case). -/
def Statement.isIfWithNestedExit : Statement → Bool
  | .ifStatement _ c _ => (getBlockStatements c).any Statement.isNestedIfElseExit
  | _ => false

/-- Size bound used for termination of the rewriter recursion. -/
lemma sizeOf_getBlockStatements_le (c : Statement) :
    sizeOf (getBlockStatements c) ≤ 2 + sizeOf c := by
  cases c <;> simp [getBlockStatements] <;> simp_arith

mutual

/-- Embeds `flattenIfElseChain`, the rewriter.  The loop of the
source runs exactly one iteration (every branch clears the cursor),
so the function is the three-way branch on the alternate; the
consequent loops of the two flattening branches are
`processConsequentA` and `processConsequentB`. -/
def flattenIfElseChain : Statement → String → String
  | .ifStatement test consequent (some alternate), baseIndent =>
      if isSimpleExit alternate then
        String.intercalate "\n"
          ((baseIndent ++ "if (" ++ invertCondition test ++ ") " ++
              convertToEarlyReturn alternate)
            :: processConsequentA (getBlockStatements consequent) baseIndent)
      else ""
  | .ifStatement test consequent none, baseIndent =>
      match (getBlockStatements consequent).find? Statement.isNestedIfElseExit with
      | some _ =>
          String.intercalate "\n"
            ((baseIndent ++ "if (" ++ invertCondition test ++ ") return;")
              :: processConsequentB (getBlockStatements consequent) baseIndent)
      | none => ""
  | _, _ => ""
termination_by s _ => sizeOf s
decreasing_by
  all_goals
    have h1 := sizeOf_getBlockStatements_le consequent
    have h2 : 1 <= sizeOf test := by cases test <;> simp_arith
    simp_arith
    omega

/-- The consequent loop of the Pattern A branch of
`flattenIfElseChain`: a nested if-else with simple exit, or an if
without alternate holding one at depth one, is recursively flattened
at the same indent; every other statement is re-emitted at the base
indent. -/
def processConsequentA : List Statement → String → List String
  | [], _ => []
  | stmt :: rest, baseIndent =>
      (if stmt.isNestedIfElseExit then flattenIfElseChain stmt baseIndent
       else if stmt.isIfNoAltWithNestedExit then flattenIfElseChain stmt baseIndent
       else baseIndent ++ stmt.getText)
        :: processConsequentA rest baseIndent
termination_by l _ => sizeOf l
decreasing_by
  all_goals simp_arith

/-- The consequent loop of the Pattern B branch of
`flattenIfElseChain`: identical to `processConsequentA` except that
its second case applies to every if statement, whether or not an
alternate is present. -/
def processConsequentB : List Statement → String → List String
  | [], _ => []
  | stmt :: rest, baseIndent =>
      (if stmt.isNestedIfElseExit then flattenIfElseChain stmt baseIndent
       else if stmt.isIfWithNestedExit then flattenIfElseChain stmt baseIndent
       else baseIndent ++ stmt.getText)
        :: processConsequentB rest baseIndent
termination_by l _ => sizeOf l
decreasing_by
  all_goals simp_arith

end

/-- A text replacement instruction, modelling the `Fix` returned by
`fixer.replaceText(node, fixedCode)`: the span of the node and the
replacement text. -/
structure RuleFix where
  rangeStart : Nat
  rangeEnd : Nat
  text : String
deriving DecidableEq, Repr

/-- Embeds `createFix`: replace the whole span of the node with the
output of `flattenIfElseChain` at the indentation of the node. -/
def createFix (node : Statement) (nodeStart nodeEnd : Nat) (sourceText : String) : RuleFix :=
  let indent := getIndentation sourceText nodeStart
  let fixedCode := flattenIfElseChain node indent
  { rangeStart := nodeStart, rangeEnd := nodeEnd, text := fixedCode }

/-- The statement whose source text `convertToEarlyReturn` emits: the
unwrapped exit statement, with an expression statement replaced by
the return statement wrapping its expression.  Used to model the
parse of the guard clause emitted by the rewriter. -/
def structuralExit (statement : Statement) : Statement :=
  match getSimpleExitStatement statement with
  | .expressionStatement e => .returnStatement ("return " ++ e.getText ++ ";")
  | s => s

mutual

/-- The statement list whose source text `flattenIfElseChain` emits,
line for line: the guard clause of each flattening branch becomes an
if statement with the inverted condition as test, the exit statement
as consequent and no alternate; recursive flattening contributes its
own statement list; a re-emitted statement contributes itself.  This
models the parse of the rewritten text (a statement re-emitted by
the degenerate Pattern B case that flattens to nothing contributes
an empty line of text and hence no statement). -/
def flattenStructural : Statement → List Statement
  | .ifStatement test consequent (some alternate) =>
      if isSimpleExit alternate then
        Statement.ifStatement (.otherExpression (invertCondition test))
            (structuralExit alternate) none
          :: processStructuralA (getBlockStatements consequent)
      else []
  | .ifStatement test consequent none =>
      match (getBlockStatements consequent).find? Statement.isNestedIfElseExit with
      | some _ =>
          Statement.ifStatement (.otherExpression (invertCondition test))
              (.returnStatement "return;") none
            :: processStructuralB (getBlockStatements consequent)
      | none => []
  | _ => []
termination_by s => sizeOf s
decreasing_by
  all_goals
    have h1 := sizeOf_getBlockStatements_le consequent
    have h2 : 1 <= sizeOf test := by cases test <;> simp_arith
    simp_arith
    omega

/-- Structural counterpart of `processConsequentA`. -/
def processStructuralA : List Statement → List Statement
  | [] => []
  | stmt :: rest =>
      (if stmt.isNestedIfElseExit then flattenStructural stmt
       else if stmt.isIfNoAltWithNestedExit then flattenStructural stmt
       else [stmt]) ++ processStructuralA rest
termination_by l => sizeOf l
decreasing_by
  all_goals simp_arith

/-- Structural counterpart of `processConsequentB`. -/
def processStructuralB : List Statement → List Statement
  | [] => []
  | stmt :: rest =>
      (if stmt.isNestedIfElseExit then flattenStructural stmt
       else if stmt.isIfWithNestedExit then flattenStructural stmt
       else [stmt]) ++ processStructuralB rest
termination_by l => sizeOf l
decreasing_by
  all_goals simp_arith

end

mutual

/-- All if statements directly inside a block with the given
statement list and grandparent type tag, paired with their parent
node as the detector sees it, together with all if statements deeper
inside those statements, including the bodies of nested function
declarations (whose conditionals have the function declaration as
grandparent in the real tree). -/
def collectIfsInBlockBody (body : List Statement) (grandParentType : String) :
    List (Statement × ParentNode) :=
  collectIfsInStmts body body grandParentType
termination_by 2 * sizeOf body + 1

/-- Worker for `collectIfsInBlockBody`: walks the remaining
statements while keeping the full body for the parent record. -/
def collectIfsInStmts : List Statement → List Statement → String →
    List (Statement × ParentNode)
  | [], _, _ => []
  | s :: rest, body, grandParentType =>
      (if s.isIfStmt then [(s, ParentNode.blockStatement body grandParentType)] else [])
        ++ collectIfsInside s ++ collectIfsInStmts rest body grandParentType
termination_by l _ _ => 2 * sizeOf l
decreasing_by
  all_goals
    simp_arith
    try omega

/-- All if statements strictly inside a statement, paired with their
parent node as the detector sees it.  A block descends with
grandparent tag BlockStatement, an if statement descends into its
children with parent tag IfStatement, and a function declaration
descends into its body with grandparent tag FunctionDeclaration;
statements the model keeps as opaque text have no represented
conditionals inside. -/
def collectIfsInside : Statement → List (Statement × ParentNode)
  | .blockStatement body => collectIfsInBlockBody body "BlockStatement"
  | .ifStatement _ c a =>
      collectIfsInChild c "IfStatement" ++
        (match a with
         | some x => collectIfsInChild x "IfStatement"
         | none => [])
  | .functionDeclaration _ body => collectIfsInBlockBody body "FunctionDeclaration"
  | _ => []
termination_by s => 2 * sizeOf s
decreasing_by
  all_goals
    simp_arith
    try omega

/-- All if statements inside a statement sitting as the direct child
(consequent or alternate) of a non-block node of the given type:
the child itself when it is an if statement, the if statements of
its block body when it is a block, and everything deeper. -/
def collectIfsInChild : Statement → String → List (Statement × ParentNode)
  | .blockStatement body, parentType => collectIfsInBlockBody body parentType
  | .ifStatement t c a, parentType =>
      (Statement.ifStatement t c a, ParentNode.other parentType)
        :: collectIfsInside (Statement.ifStatement t c a)
  | .functionDeclaration h body, _ =>
      collectIfsInside (Statement.functionDeclaration h body)
  | _, _ => []
termination_by s _ => 2 * sizeOf s + 1
decreasing_by
  all_goals simp_arith

end

mutual

/-- Like `collectIfsInBlockBody`, but restricted to the conditionals
of the construct itself: the bodies of nested function-like
declaration statements are not entered.  Used to state which
conditionals of the rewrite output the flattening itself is
answerable for, as opposed to conditionals sitting inside statements
the rewriter copies verbatim. -/
def collectOwnIfsInBlockBody (body : List Statement) (grandParentType : String) :
    List (Statement × ParentNode) :=
  collectOwnIfsInStmts body body grandParentType
termination_by 2 * sizeOf body + 1

/-- Worker for `collectOwnIfsInBlockBody`. -/
def collectOwnIfsInStmts : List Statement → List Statement → String →
    List (Statement × ParentNode)
  | [], _, _ => []
  | s :: rest, body, grandParentType =>
      (if s.isIfStmt then [(s, ParentNode.blockStatement body grandParentType)] else [])
        ++ collectOwnIfsInStmt s ++ collectOwnIfsInStmts rest body grandParentType
termination_by l _ _ => 2 * sizeOf l
decreasing_by
  all_goals
    simp_arith
    try omega

/-- All if statements strictly inside a statement without entering
nested function-declaration bodies. -/
def collectOwnIfsInStmt : Statement → List (Statement × ParentNode)
  | .blockStatement body => collectOwnIfsInBlockBody body "BlockStatement"
  | .ifStatement _ c a =>
      collectOwnIfsInChild c "IfStatement" ++
        (match a with
         | some x => collectOwnIfsInChild x "IfStatement"
         | none => [])
  | _ => []
termination_by s => 2 * sizeOf s
decreasing_by
  all_goals simp_arith

/-- All if statements inside a direct child of a non-block node of
the given type, without entering nested function-declaration
bodies. -/
def collectOwnIfsInChild : Statement → String → List (Statement × ParentNode)
  | .blockStatement body, parentType => collectOwnIfsInBlockBody body parentType
  | .ifStatement t c a, parentType =>
      (Statement.ifStatement t c a, ParentNode.other parentType)
        :: collectOwnIfsInStmt (Statement.ifStatement t c a)
  | _, _ => []
termination_by s _ => 2 * sizeOf s + 1
decreasing_by
  all_goals simp_arith

end

/-!
Sanity checks: the example scenarios of the specification evaluated
on the embedding.
-/

/-- Scenario 1 node: the outer if of
`if(a)\x7b if(b)\x7b x(); \x7d else \x7b return 1; \x7d \x7d else \x7b return 2; \x7d`. -/
def exampleOneNode : Statement :=
  .ifStatement (.identifier "a")
    (.blockStatement
      [.ifStatement (.identifier "b")
        (.blockStatement [.expressionStatement (.callExpression "x()")])
        (some (.blockStatement [.returnStatement "return 1;"]))])
    (some (.blockStatement [.returnStatement "return 2;"]))

/-- The conditional at the top of the body of a verbatim-copied
nested function: the last statement of that body, with an
exit-classified alternate and a nested if in its consequent, so the
detector matches it inside the function. -/
def nestedFunctionIf : Statement :=
  .ifStatement (.identifier "x")
    (.blockStatement
      [.ifStatement (.identifier "y")
        (.blockStatement [.expressionStatement (.callExpression "act()")])
        (some (.blockStatement [.returnStatement "return 1;"]))])
    (some (.blockStatement [.returnStatement "return 2;"]))

/-- A function declaration whose body is `nestedFunctionIf`; the
rewriter treats it as an opaque statement and re-emits it
verbatim. -/
def nestedFunctionDecl : Statement :=
  .functionDeclaration "function g()" [nestedFunctionIf]

/-- A detector-matched Pattern A node whose consequent holds the
nested function declaration followed by a flattenable if-else: the
rewrite re-emits the function declaration verbatim into the
output. -/
def exampleNestedFnNode : Statement :=
  .ifStatement (.identifier "a")
    (.blockStatement
      [nestedFunctionDecl,
        .ifStatement (.identifier "b")
          (.blockStatement [.expressionStatement (.callExpression "use()")])
          (some (.blockStatement [.returnStatement "return 3;"]))])
    (some (.blockStatement [.returnStatement "return 4;"]))

/-- Scenario 1 of the specification: the nested if-else chain as the
only statement of a function body is detected. -/
theorem sanityExampleOneDetect :
    shouldReportEarlyReturn exampleOneNode
      (.blockStatement [exampleOneNode] "FunctionDeclaration") = true := by
  decide

/-- Scenario 1 of the specification: the fix output is the two guard
lines followed by the re-emitted call. -/
theorem sanityExampleOneFix :
    flattenIfElseChain exampleOneNode "" =
      "if (!a) return 2;\nif (!b) return 1;\nx();" := by
  simp [exampleOneNode, flattenIfElseChain, processConsequentA, getBlockStatements,
    isSimpleExit, Statement.isNestedIfElseExit, Statement.isIfNoAltWithNestedExit,
    invertCondition, convertToEarlyReturn, getSimpleExitStatement, Statement.getText,
    Expression.getText]
  decide

/-- Scenario 2 of the specification: a single flat if-else (no nested
if in the consequent) is not detected, even as the last statement of
a function body. -/
theorem sanityExampleTwoDetect :
    shouldReportEarlyReturn
      (.ifStatement (.identifier "a")
        (.blockStatement [.expressionStatement (.callExpression "x()")])
        (some (.blockStatement [.expressionStatement (.callExpression "y()")])))
      (.blockStatement
        [.ifStatement (.identifier "a")
          (.blockStatement [.expressionStatement (.callExpression "x()")])
          (some (.blockStatement [.expressionStatement (.callExpression "y()")]))]
        "FunctionDeclaration") = false := by
  decide

/-- Scenario 3 of the specification: a matching shape nested in a
loop body (grandparent a for statement) is not detected. -/
theorem sanityExampleThreeDetect :
    shouldReportEarlyReturn exampleOneNode
      (.blockStatement [exampleOneNode] "ForStatement") = false := by
  decide

/-- Scenario 5 of the specification: an if without alternate whose
nested if also has no alternate is not detected. -/
theorem sanityExampleFiveDetect :
    shouldReportEarlyReturn
      (.ifStatement (.identifier "a")
        (.blockStatement
          [.ifStatement (.identifier "b")
            (.blockStatement [.expressionStatement (.callExpression "w()")]) none])
        none)
      (.blockStatement
        [.ifStatement (.identifier "a")
          (.blockStatement
            [.ifStatement (.identifier "b")
              (.blockStatement [.expressionStatement (.callExpression "w()")]) none])
          none]
        "FunctionDeclaration") = false := by
  decide

/-!
Shared lemmas about the detector.
-/

/-- The detector on an if statement with alternate is the conjunction
of the two eligibility checks, the exit classification of the
alternate, and the nested-if check on the consequent. -/
lemma detPatternA_eq (test : Expression) (consequent alt : Statement)
    (parent : ParentNode) :
    shouldReportEarlyReturn (.ifStatement test consequent (some alt)) parent =
      (isDirectlyInFunctionBody parent &&
        isLastStatementInBlock (.ifStatement test consequent (some alt)) parent &&
        isSimpleExit alt && hasNestedIfInConsequent consequent) := by
  cases hb : isDirectlyInFunctionBody parent <;>
    cases hl : isLastStatementInBlock (.ifStatement test consequent (some alt)) parent <;>
      simp [shouldReportEarlyReturn, hb, hl]

/-- The detector on an if statement without alternate is the
conjunction of the two eligibility checks and the search for a
nested if-else with simple exit at depth one of the consequent. -/
lemma detPatternB_eq (test : Expression) (consequent : Statement)
    (parent : ParentNode) :
    shouldReportEarlyReturn (.ifStatement test consequent none) parent =
      (isDirectlyInFunctionBody parent &&
        isLastStatementInBlock (.ifStatement test consequent none) parent &&
        (getBlockStatements consequent).any Statement.isNestedIfElseExit) := by
  cases hb : isDirectlyInFunctionBody parent <;>
    cases hl : isLastStatementInBlock (.ifStatement test consequent none) parent <;>
      simp [shouldReportEarlyReturn, hb, hl]

/-- The detector is false on every statement that is not an if
statement. -/
lemma detFalse_nonIf (s : Statement) (p : ParentNode) (h : s.isIfStmt = false) :
    shouldReportEarlyReturn s p = false := by
  cases s <;> simp [Statement.isIfStmt] at h ⊢ <;> simp [shouldReportEarlyReturn]

/-- The detector is false whenever the parent is not a block
statement. -/
lemma detFalse_parentNotBlock (s : Statement) (t : String) :
    shouldReportEarlyReturn s (.other t) = false := by
  cases s <;>
    simp [shouldReportEarlyReturn, isDirectlyInFunctionBody]

/-- The detector is false whenever the grandparent is neither
function-like nor a method definition. -/
lemma detFalse_grandParentNotFunction (s : Statement) (body : List Statement)
    (g : String) (h1 : isFunctionNode g = false) (h2 : g ≠ "MethodDefinition") :
    shouldReportEarlyReturn s (.blockStatement body g) = false := by
  have hd : isDirectlyInFunctionBody (.blockStatement body g) = false := by
    simp [isDirectlyInFunctionBody, h1]
    exact h2
  cases s <;> simp [shouldReportEarlyReturn, hd]

/-- The detector is false on an if statement with an alternate that
is not a simple exit, whatever the parent. -/
lemma detFalse_altNotExit (test : Expression) (consequent alt : Statement)
    (p : ParentNode) (h : isSimpleExit alt = false) :
    shouldReportEarlyReturn (.ifStatement test consequent (some alt)) p = false := by
  rw [detPatternA_eq]
  simp [h]

/-- The detector is false on an if statement without alternate whose
consequent holds no depth-one if-else with simple exit, whatever the
parent. -/
lemma detFalse_noNested (test : Expression) (consequent : Statement)
    (p : ParentNode)
    (h : (getBlockStatements consequent).any Statement.isNestedIfElseExit = false) :
    shouldReportEarlyReturn (.ifStatement test consequent none) p = false := by
  rw [detPatternB_eq]
  simp [h]

/-!
Claim theorems: detector.
-/

/-- C1: for every conditional node whose alternate is present, the
detector returns true if and only if the node is directly inside a
function or method body block, the node is the last statement of
that block, the alternate is exit-classified, and the top-level
statement sequence of the consequent contains an if statement; in
particular a flat if-else with no nested conditional never matches. -/
theorem C1_detectorPatternA :
    ∀ (test : Expression) (consequent alt : Statement) (parent : ParentNode),
      shouldReportEarlyReturn (.ifStatement test consequent (some alt)) parent =
        (isDirectlyInFunctionBody parent &&
          isLastStatementInBlock (.ifStatement test consequent (some alt)) parent &&
          isSimpleExit alt && hasNestedIfInConsequent consequent) :=
  fun test consequent alt parent => detPatternA_eq test consequent alt parent

/-- C2: for every conditional node whose alternate is absent, the
detector returns true if and only if the node is directly inside a
function or method body block, is the last statement of that block,
and some depth-one statement of the consequent is an if whose
alternate is present and exit-classified; an if with no alternate,
or with a non-exit alternate, never witnesses the search. -/
theorem C2_detectorPatternB :
    (∀ (test : Expression) (consequent : Statement) (parent : ParentNode),
      shouldReportEarlyReturn (.ifStatement test consequent none) parent =
        (isDirectlyInFunctionBody parent &&
          isLastStatementInBlock (.ifStatement test consequent none) parent &&
          (getBlockStatements consequent).any Statement.isNestedIfElseExit))
    ∧ (∀ (t : Expression) (c : Statement),
        Statement.isNestedIfElseExit (.ifStatement t c none) = false)
    ∧ (∀ (t : Expression) (c a : Statement),
        Statement.isNestedIfElseExit (.ifStatement t c (some a)) = isSimpleExit a) := by
  refine ⟨fun test consequent parent => detPatternB_eq test consequent parent, ?_, ?_⟩
  · intro t c
    simp [Statement.isNestedIfElseExit]
  · intro t c a
    simp [Statement.isNestedIfElseExit]

/-- C5: a statement is exit-classified exactly when it is a return
statement, a throw statement, an expression statement, or a block
holding exactly one statement that is recursively exit-classified;
an empty block, a block of two or more statements, and an if
statement (in particular an else-if alternate) are never
exit-classified. -/
theorem C5_isSimpleExitCharacterization :
    (∀ s : Statement, isSimpleExit s = true ↔
      ((∃ t, s = .returnStatement t) ∨ (∃ t, s = .throwStatement t) ∨
        (∃ e, s = .expressionStatement e) ∨
        (∃ u, s = .blockStatement [u] ∧ isSimpleExit u = true)))
    ∧ isSimpleExit (.blockStatement []) = false
    ∧ (∀ (a b : Statement) (rest : List Statement),
        isSimpleExit (.blockStatement (a :: b :: rest)) = false)
    ∧ (∀ (t : Expression) (c : Statement) (alt : Option Statement),
        isSimpleExit (.ifStatement t c alt) = false) := by
  refine ⟨?_, by simp [isSimpleExit], ?_, ?_⟩
  · intro s
    match s with
    | .returnStatement t => simp [isSimpleExit]
    | .throwStatement t => simp [isSimpleExit]
    | .expressionStatement e => simp [isSimpleExit]
    | .blockStatement [] => simp [isSimpleExit]
    | .blockStatement [u] => simp [isSimpleExit]
    | .blockStatement (a :: b :: rest) => simp [isSimpleExit]
    | .ifStatement t c a => simp [isSimpleExit]
    | .functionDeclaration h b => simp [isSimpleExit]
    | .otherStatement t => simp [isSimpleExit]
  · intro a b rest
    simp [isSimpleExit]
  · intro t c alt
    simp [isSimpleExit]

/-- C6: the detector rejects every node whose parent is not a block
statement, and every node whose parent block hangs off a grandparent
that is neither function-like nor a method definition, regardless of
the shape of the node. -/
theorem C6_detectorScope :
    (∀ (node : Statement) (parentType : String),
      shouldReportEarlyReturn node (.other parentType) = false)
    ∧ (∀ (node : Statement) (body : List Statement) (g : String),
        isFunctionNode g = false → g ≠ "MethodDefinition" →
        shouldReportEarlyReturn node (.blockStatement body g) = false) :=
  ⟨fun node parentType => detFalse_parentNotBlock node parentType,
    fun node body g h1 h2 => detFalse_grandParentNotFunction node body g h1 h2⟩

/-- Witness for C6: a conditional of fully matching shape directly
inside a for-statement body is rejected. -/
theorem C6_detectorScope_witness :
    isFunctionNode "ForStatement" = false ∧
    shouldReportEarlyReturn
      (.ifStatement (.identifier "ok")
        (.blockStatement
          [.ifStatement (.identifier "inner")
            (.blockStatement [.expressionStatement (.callExpression "act()")])
            (some (.returnStatement "return;"))])
        (some (.returnStatement "return;")))
      (.blockStatement
        [.ifStatement (.identifier "ok")
          (.blockStatement
            [.ifStatement (.identifier "inner")
              (.blockStatement [.expressionStatement (.callExpression "act()")])
              (some (.returnStatement "return;"))])
          (some (.returnStatement "return;"))]
        "ForStatement") = false :=
  ⟨by decide,
    C6_detectorScope.2
      (.ifStatement (.identifier "ok")
        (.blockStatement
          [.ifStatement (.identifier "inner")
            (.blockStatement [.expressionStatement (.callExpression "act()")])
            (some (.returnStatement "return;"))])
        (some (.returnStatement "return;")))
      [.ifStatement (.identifier "ok")
        (.blockStatement
          [.ifStatement (.identifier "inner")
            (.blockStatement [.expressionStatement (.callExpression "act()")])
            (some (.returnStatement "return;"))])
        (some (.returnStatement "return;"))]
      "ForStatement" (by decide) (by decide)⟩

/-!
Claim theorems: condition inversion and exit conversion.
-/

/-- C3: the condition inversion produces exactly the table output for
every input shape: a binary comparison outside the table and any
other unhandled expression are wrapped as a negated parenthesised
text; a negation over an identifier, member access or call is
stripped; a negation over a compound expression keeps parentheses;
each of the eight comparison operators maps to its listed inverse;
a bare identifier, member access or call is prefixed with a bang;
and the eight-operator mapping is an involution. -/
theorem C3_invertConditionTable :
    (∀ (op : String) (l r : Expression),
      op ≠ "===" → op ≠ "!==" → op ≠ "==" → op ≠ "!=" →
      op ≠ "<" → op ≠ "<=" → op ≠ ">" → op ≠ ">=" →
      invertCondition (.binaryExpression op l r) =
        "!(" ++ (Expression.binaryExpression op l r).getText ++ ")")
    ∧ (∀ (op : String) (a : Expression), op ≠ "!" →
        invertCondition (.unaryExpression op a) =
          "!(" ++ (Expression.unaryExpression op a).getText ++ ")")
    ∧ (∀ t, invertCondition (.unaryExpression "!" (.identifier t)) = t)
    ∧ (∀ t, invertCondition (.unaryExpression "!" (.memberExpression t)) = t)
    ∧ (∀ t, invertCondition (.unaryExpression "!" (.callExpression t)) = t)
    ∧ (∀ (op : String) (a : Expression),
        invertCondition (.unaryExpression "!" (.unaryExpression op a)) =
          "(" ++ (Expression.unaryExpression op a).getText ++ ")")
    ∧ (∀ (op : String) (l r : Expression),
        invertCondition (.unaryExpression "!" (.binaryExpression op l r)) =
          "(" ++ (Expression.binaryExpression op l r).getText ++ ")")
    ∧ (∀ t, invertCondition (.unaryExpression "!" (.otherExpression t)) =
        "(" ++ t ++ ")")
    ∧ (∀ l r : Expression, invertCondition (.binaryExpression "===" l r) =
        l.getText ++ " !== " ++ r.getText)
    ∧ (∀ l r : Expression, invertCondition (.binaryExpression "!==" l r) =
        l.getText ++ " === " ++ r.getText)
    ∧ (∀ l r : Expression, invertCondition (.binaryExpression "==" l r) =
        l.getText ++ " != " ++ r.getText)
    ∧ (∀ l r : Expression, invertCondition (.binaryExpression "!=" l r) =
        l.getText ++ " == " ++ r.getText)
    ∧ (∀ l r : Expression, invertCondition (.binaryExpression "<" l r) =
        l.getText ++ " >= " ++ r.getText)
    ∧ (∀ l r : Expression, invertCondition (.binaryExpression "<=" l r) =
        l.getText ++ " > " ++ r.getText)
    ∧ (∀ l r : Expression, invertCondition (.binaryExpression ">" l r) =
        l.getText ++ " <= " ++ r.getText)
    ∧ (∀ l r : Expression, invertCondition (.binaryExpression ">=" l r) =
        l.getText ++ " < " ++ r.getText)
    ∧ (∀ t, invertCondition (.identifier t) = "!" ++ t)
    ∧ (∀ t, invertCondition (.memberExpression t) = "!" ++ t)
    ∧ (∀ t, invertCondition (.callExpression t) = "!" ++ t)
    ∧ (∀ t, invertCondition (.otherExpression t) = "!(" ++ t ++ ")")
    ∧ (invertBinaryOperator (invertBinaryOperator "===") = "===" ∧
        invertBinaryOperator (invertBinaryOperator "!==") = "!==" ∧
        invertBinaryOperator (invertBinaryOperator "==") = "==" ∧
        invertBinaryOperator (invertBinaryOperator "!=") = "!=" ∧
        invertBinaryOperator (invertBinaryOperator "<") = "<" ∧
        invertBinaryOperator (invertBinaryOperator "<=") = "<=" ∧
        invertBinaryOperator (invertBinaryOperator ">") = ">" ∧
        invertBinaryOperator (invertBinaryOperator ">=") = ">=") := by
  refine ⟨?_, ?_, fun t => rfl, fun t => rfl, fun t => rfl, fun op a => rfl,
    fun op l r => rfl, fun t => rfl, fun l r => rfl, fun l r => rfl, fun l r => rfl,
    fun l r => rfl, fun l r => rfl, fun l r => rfl, fun l r => rfl, fun l r => rfl,
    fun t => rfl, fun t => rfl, fun t => rfl, fun t => rfl, by decide⟩
  · intro op l r h1 h2 h3 h4 h5 h6 h7 h8
    rw [invertCondition.eq_def]
    split <;> simp_all [Expression.getText]
  · intro op a h
    rw [invertCondition.eq_def]
    split <;> simp_all [Expression.getText]

/-- Witness for C3: a binary operator outside the table falls to the
generic negated parenthesised form. -/
theorem C3_invertConditionTable_witness :
    invertCondition (.binaryExpression "instanceof" (.identifier "a") (.identifier "B")) =
      "!(a instanceof B)" := by
  have h := C3_invertConditionTable.1 "instanceof" (.identifier "a") (.identifier "B")
    (by decide) (by decide) (by decide) (by decide) (by decide) (by decide)
    (by decide) (by decide)
  simpa [Expression.getText] using h

/-- C4: for every statement handed to the exit conversion, when the
recursively unwrapped statement is a return or throw statement the
emitted exit text is its source text verbatim, and when it is an
expression statement the emitted text is the word return, the text
of its expression, and a semicolon. -/
theorem C4_convertToEarlyReturn :
    ∀ s : Statement,
      (∀ t, getSimpleExitStatement s = .returnStatement t →
        convertToEarlyReturn s = (Statement.returnStatement t).getText)
      ∧ (∀ t, getSimpleExitStatement s = .throwStatement t →
        convertToEarlyReturn s = (Statement.throwStatement t).getText)
      ∧ (∀ e, getSimpleExitStatement s = .expressionStatement e →
        convertToEarlyReturn s = "return " ++ e.getText ++ ";") := by
  intro s
  refine ⟨?_, ?_, ?_⟩
  · intro t h
    simp [convertToEarlyReturn, h, Statement.getText]
  · intro t h
    simp [convertToEarlyReturn, h, Statement.getText]
  · intro e h
    simp [convertToEarlyReturn, h]

/-- Witness for C4: a one-statement block around a call expression is
converted into a return of that call. -/
theorem C4_convertToEarlyReturn_witness :
    getSimpleExitStatement
        (.blockStatement [.expressionStatement (.callExpression "res.status(401).send(msg)")]) =
      .expressionStatement (.callExpression "res.status(401).send(msg)") ∧
    convertToEarlyReturn
        (.blockStatement [.expressionStatement (.callExpression "res.status(401).send(msg)")]) =
      "return res.status(401).send(msg);" :=
  ⟨rfl,
    (C4_convertToEarlyReturn
        (.blockStatement [.expressionStatement (.callExpression "res.status(401).send(msg)")])).2.2
      (.callExpression "res.status(401).send(msg)") rfl⟩

/-!
Shared lemmas about the rewriter on shape-rejected nodes.
-/

/-- The rewriter emits nothing when the alternate is present but not
a simple exit. -/
lemma flatten_altNotExit (test : Expression) (consequent alt : Statement)
    (baseIndent : String) (h : isSimpleExit alt = false) :
    flattenIfElseChain (.ifStatement test consequent (some alt)) baseIndent = "" := by
  simp [flattenIfElseChain, h]

/-- The rewriter emits nothing when the alternate is absent and no
depth-one statement of the consequent is an if-else with simple
exit. -/
lemma flatten_noNested (test : Expression) (consequent : Statement)
    (baseIndent : String)
    (h : (getBlockStatements consequent).any Statement.isNestedIfElseExit = false) :
    flattenIfElseChain (.ifStatement test consequent none) baseIndent = "" := by
  have hf : (getBlockStatements consequent).find? Statement.isNestedIfElseExit = none := by
    rw [List.find?_eq_none]
    intro x hx
    have h2 := List.any_eq_false.mp h
    simpa using h2 x hx
  simp [flattenIfElseChain, hf]

/-!
Claim theorem: empty rewrite output on shape-rejected nodes.
-/

/-- C10: on every conditional the detector would reject for shape
(alternate present but not exit-classified, or alternate absent with
no depth-one if-else exit in the consequent) the rewriter returns the
empty string, and the fix built for such a node replaces its whole
span with empty text. -/
theorem C10_emptyRewriteDeletes :
    (∀ (test : Expression) (consequent alt : Statement) (baseIndent : String),
      isSimpleExit alt = false →
      flattenIfElseChain (.ifStatement test consequent (some alt)) baseIndent = "")
    ∧ (∀ (test : Expression) (consequent : Statement) (baseIndent : String),
        (getBlockStatements consequent).any Statement.isNestedIfElseExit = false →
        flattenIfElseChain (.ifStatement test consequent none) baseIndent = "")
    ∧ (∀ (test : Expression) (consequent alt : Statement)
        (nodeStart nodeEnd : Nat) (src : String),
        isSimpleExit alt = false →
        createFix (.ifStatement test consequent (some alt)) nodeStart nodeEnd src =
          ⟨nodeStart, nodeEnd, ""⟩)
    ∧ (∀ (test : Expression) (consequent : Statement)
        (nodeStart nodeEnd : Nat) (src : String),
        (getBlockStatements consequent).any Statement.isNestedIfElseExit = false →
        createFix (.ifStatement test consequent none) nodeStart nodeEnd src =
          ⟨nodeStart, nodeEnd, ""⟩) := by
  refine ⟨fun t c a i h => flatten_altNotExit t c a i h,
    fun t c i h => flatten_noNested t c i h, ?_, ?_⟩
  · intro t c a ns ne src h
    simp [createFix, flatten_altNotExit t c a _ h]
  · intro t c ns ne src h
    simp [createFix, flatten_noNested t c _ h]

/-- Witness for C10: a two-statement else branch is not an exit, and
the fix for such a node deletes its whole span. -/
theorem C10_emptyRewriteDeletes_witness :
    isSimpleExit
        (.blockStatement [.expressionStatement (.callExpression "y()"),
          .expressionStatement (.callExpression "z()")]) = false ∧
    createFix
        (.ifStatement (.identifier "a")
          (.blockStatement
            [.ifStatement (.identifier "b")
              (.blockStatement [.expressionStatement (.callExpression "x()")])
              (some (.returnStatement "return 1;"))])
          (some (.blockStatement [.expressionStatement (.callExpression "y()"),
            .expressionStatement (.callExpression "z()")])))
        10 50 "function f() ..." = ⟨10, 50, ""⟩ :=
  ⟨by decide,
    C10_emptyRewriteDeletes.2.2.1 (.identifier "a")
      (.blockStatement
        [.ifStatement (.identifier "b")
          (.blockStatement [.expressionStatement (.callExpression "x()")])
          (some (.returnStatement "return 1;"))])
      (.blockStatement [.expressionStatement (.callExpression "y()"),
        .expressionStatement (.callExpression "z()")])
      10 50 "function f() ..." (by decide)⟩

/-- The worker of `String.intercalate` only ever appends to its
accumulator. -/
lemma intercalate_go_ex (as : List String) :
    ∀ acc s : String, ∃ r, String.intercalate.go acc s as = acc ++ r := by
  induction as with
  | nil =>
      intro acc s
      exact ⟨"", by simp [String.intercalate.go]⟩
  | cons a as ih =>
      intro acc s
      obtain ⟨r, hr⟩ := ih (acc ++ s ++ a) s
      refine ⟨s ++ a ++ r, ?_⟩
      rw [String.intercalate.go, hr]
      simp [String.append_assoc]

/-- Joining a non-empty line list starts with the first line. -/
lemma intercalate_head_ex (g : String) (l : List String) :
    ∃ r, String.intercalate "\n" (g :: l) = g ++ r := by
  rw [String.intercalate]
  exact intercalate_go_ex l g "\n"

/-!
Claim theorem: the Pattern B guard is always emitted for
detector-validated nodes.
-/

/-- C8: when the detector accepts a conditional with absent
alternate, the consequent indeed holds a depth-one if-else with
exit-classified alternate, so the nothing-to-flatten branch of the
rewriter is not taken: the output is non-empty and starts with the
guard line built from the inverted condition and a bare return. -/
theorem C8_patternBGuardEmitted (test : Expression) (consequent : Statement)
    (parent : ParentNode) (baseIndent : String)
    (h : shouldReportEarlyReturn (.ifStatement test consequent none) parent = true) :
    (getBlockStatements consequent).any Statement.isNestedIfElseExit = true ∧
    flattenIfElseChain (.ifStatement test consequent none) baseIndent ≠ "" ∧
    ∃ rest, flattenIfElseChain (.ifStatement test consequent none) baseIndent =
      (baseIndent ++ "if (" ++ invertCondition test ++ ") return;") ++ rest := by
  rw [detPatternB_eq] at h
  simp only [Bool.and_eq_true] at h
  have hany := h.2
  obtain ⟨x, hx, hpx⟩ := List.any_eq_true.mp hany
  obtain ⟨w, hw⟩ := Option.isSome_iff_exists.mp
    (List.find?_isSome.mpr ⟨x, hx, hpx⟩)
  have hflat : flattenIfElseChain (.ifStatement test consequent none) baseIndent =
      String.intercalate "\n"
        ((baseIndent ++ "if (" ++ invertCondition test ++ ") return;")
          :: processConsequentB (getBlockStatements consequent) baseIndent) := by
    simp [flattenIfElseChain, hw]
  obtain ⟨r, hr⟩ := intercalate_head_ex
    (baseIndent ++ "if (" ++ invertCondition test ++ ") return;")
    (processConsequentB (getBlockStatements consequent) baseIndent)
  refine ⟨hany, ?_, ⟨r, by rw [hflat, hr]⟩⟩
  rw [hflat, hr]
  intro heq
  have hl := congrArg String.length heq
  have h4 : String.length "if (" = 4 := rfl
  simp only [String.length_append] at hl
  simp at hl
  omega

/-- Witness for C8: a detector-accepted Pattern B node produces a
guard-headed, non-empty rewrite. -/
theorem C8_patternBGuardEmitted_witness :
    shouldReportEarlyReturn
      (.ifStatement (.identifier "user")
        (.blockStatement
          [.ifStatement (.identifier "order")
            (.blockStatement [.expressionStatement (.callExpression "process()")])
            (some (.returnStatement "return null;"))])
        none)
      (.blockStatement
        [.ifStatement (.identifier "user")
          (.blockStatement
            [.ifStatement (.identifier "order")
              (.blockStatement [.expressionStatement (.callExpression "process()")])
              (some (.returnStatement "return null;"))])
          none]
        "FunctionDeclaration") = true ∧
    ((getBlockStatements
        (.blockStatement
          [.ifStatement (.identifier "order")
            (.blockStatement [.expressionStatement (.callExpression "process()")])
            (some (.returnStatement "return null;"))])).any
        Statement.isNestedIfElseExit = true ∧
      flattenIfElseChain
        (.ifStatement (.identifier "user")
          (.blockStatement
            [.ifStatement (.identifier "order")
              (.blockStatement [.expressionStatement (.callExpression "process()")])
              (some (.returnStatement "return null;"))])
          none) "" ≠ "" ∧
      ∃ rest,
        flattenIfElseChain
          (.ifStatement (.identifier "user")
            (.blockStatement
              [.ifStatement (.identifier "order")
                (.blockStatement [.expressionStatement (.callExpression "process()")])
                (some (.returnStatement "return null;"))])
            none) "" =
          ("" ++ "if (" ++ invertCondition (.identifier "user") ++ ") return;") ++ rest) :=
  ⟨by decide,
    C8_patternBGuardEmitted (.identifier "user")
      (.blockStatement
        [.ifStatement (.identifier "order")
          (.blockStatement [.expressionStatement (.callExpression "process()")])
          (some (.returnStatement "return null;"))])
      (.blockStatement
        [.ifStatement (.identifier "user")
          (.blockStatement
            [.ifStatement (.identifier "order")
              (.blockStatement [.expressionStatement (.callExpression "process()")])
              (some (.returnStatement "return null;"))])
          none]
        "FunctionDeclaration") "" (by decide)⟩

/-- The Pattern A consequent loop is a map over the statement
sequence in original order. -/
lemma processConsequentA_eq_map (l : List Statement) (baseIndent : String) :
    processConsequentA l baseIndent = l.map (fun stmt =>
      if stmt.isNestedIfElseExit then flattenIfElseChain stmt baseIndent
      else if stmt.isIfNoAltWithNestedExit then flattenIfElseChain stmt baseIndent
      else baseIndent ++ stmt.getText) := by
  induction l with
  | nil => simp [processConsequentA]
  | cons s rest ih => simp [processConsequentA, ih]

/-!
Claim theorems: the Pattern A consequent processing.
-/

/-- Counterexample to C7 as stated: in the Pattern A branch, a
statement that is not a nested if with exit-classified alternate is
not always re-emitted with its original source text: an if without
alternate whose consequent holds a depth-one if-else exit is
recursively rewritten instead. -/
theorem C7_patternARewrite_counterexample :
    Statement.isNestedIfElseExit
        (.ifStatement (.identifier "b")
          (.blockStatement
            [.ifStatement (.identifier "c")
              (.blockStatement [.expressionStatement (.callExpression "x()")])
              (some (.returnStatement "return 1;"))])
          none) = false ∧
    flattenIfElseChain
        (.ifStatement (.identifier "a")
          (.blockStatement
            [.ifStatement (.identifier "b")
              (.blockStatement
                [.ifStatement (.identifier "c")
                  (.blockStatement [.expressionStatement (.callExpression "x()")])
                  (some (.returnStatement "return 1;"))])
              none])
          (some (.returnStatement "return 2;"))) "" =
      "if (!a) return 2;\nif (!b) return;\nif (!c) return 1;\nx();" ∧
    flattenIfElseChain
        (.ifStatement (.identifier "a")
          (.blockStatement
            [.ifStatement (.identifier "b")
              (.blockStatement
                [.ifStatement (.identifier "c")
                  (.blockStatement [.expressionStatement (.callExpression "x()")])
                  (some (.returnStatement "return 1;"))])
              none])
          (some (.returnStatement "return 2;"))) "" ≠
      "if (!a) return 2;\n" ++
        ("" ++ Statement.getText
          (.ifStatement (.identifier "b")
            (.blockStatement
              [.ifStatement (.identifier "c")
                (.blockStatement [.expressionStatement (.callExpression "x()")])
                (some (.returnStatement "return 1;"))])
            none)) := by
  refine ⟨by decide, ?_, ?_⟩ <;>
    simp [flattenIfElseChain, processConsequentA, processConsequentB,
      getBlockStatements, isSimpleExit, Statement.isNestedIfElseExit,
      Statement.isIfNoAltWithNestedExit, Statement.isIfWithNestedExit,
      invertCondition, convertToEarlyReturn, getSimpleExitStatement,
      Statement.getText, Statement.getTextList, Statement.getTextAlt,
      Expression.getText] <;> decide

/-- C7 as amended: in the Pattern A branch the statements of the
consequent sequence are processed in original order; a statement
that is a nested if with exit-classified alternate, or a nested if
without alternate whose consequent holds a depth-one if-else exit,
is recursively rewritten at the same base indent (not deeper); and
every other statement is re-emitted with its original source text
prefixed with exactly the base indent. -/
theorem C7_patternARewrite_amended (test : Expression) (consequent alt : Statement)
    (baseIndent : String) (h : isSimpleExit alt = true) :
    flattenIfElseChain (.ifStatement test consequent (some alt)) baseIndent =
      String.intercalate "\n"
        ((baseIndent ++ "if (" ++ invertCondition test ++ ") " ++ convertToEarlyReturn alt)
          :: (getBlockStatements consequent).map (fun stmt =>
            if stmt.isNestedIfElseExit then flattenIfElseChain stmt baseIndent
            else if stmt.isIfNoAltWithNestedExit then flattenIfElseChain stmt baseIndent
            else baseIndent ++ stmt.getText)) := by
  simp [flattenIfElseChain, h, processConsequentA_eq_map]

/-- Witness for the amended C7: the Pattern A branch of the scenario
one node, with a real indent, emits the guard and then each
consequent statement at that indent. -/
theorem C7_patternARewrite_amended_witness :
    isSimpleExit (.blockStatement [.returnStatement "return 2;"]) = true ∧
    flattenIfElseChain
        (.ifStatement (.identifier "a")
          (.blockStatement
            [.ifStatement (.identifier "b")
              (.blockStatement [.expressionStatement (.callExpression "x()")])
              (some (.blockStatement [.returnStatement "return 1;"]))])
          (some (.blockStatement [.returnStatement "return 2;"]))) "  " =
      String.intercalate "\n"
        (("  " ++ "if (" ++ invertCondition (.identifier "a") ++ ") " ++
            convertToEarlyReturn (.blockStatement [.returnStatement "return 2;"]))
          :: (getBlockStatements
                (.blockStatement
                  [.ifStatement (.identifier "b")
                    (.blockStatement [.expressionStatement (.callExpression "x()")])
                    (some (.blockStatement [.returnStatement "return 1;"]))])).map
              (fun stmt =>
                if stmt.isNestedIfElseExit then flattenIfElseChain stmt "  "
                else if stmt.isIfNoAltWithNestedExit then flattenIfElseChain stmt "  "
                else "  " ++ stmt.getText)) :=
  ⟨by decide,
    C7_patternARewrite_amended (.identifier "a")
      (.blockStatement
        [.ifStatement (.identifier "b")
          (.blockStatement [.expressionStatement (.callExpression "x()")])
          (some (.blockStatement [.returnStatement "return 1;"]))])
      (.blockStatement [.returnStatement "return 2;"]) "  " (by decide)⟩

/-!
Supporting lemmas for the normal-form property of the rewrite
output.
-/

/-- Every statement has positive size. -/
lemma one_le_sizeOf_statement (s : Statement) : 1 ≤ sizeOf s := by
  cases s <;> simp_arith

/-- Every expression has positive size. -/
lemma one_le_sizeOf_expression (e : Expression) : 1 ≤ sizeOf e := by
  cases e <;> simp_arith

/-- The unwrapped form of an exit-classified statement is a return,
a throw, or an expression statement. -/
lemma getSimpleExitStatement_shape :
    ∀ s : Statement, isSimpleExit s = true →
      (∃ t, getSimpleExitStatement s = .returnStatement t) ∨
      (∃ t, getSimpleExitStatement s = .throwStatement t) ∨
      (∃ e, getSimpleExitStatement s = .expressionStatement e) := by
  have H : ∀ n : Nat, ∀ s : Statement, sizeOf s ≤ n → isSimpleExit s = true →
      (∃ t, getSimpleExitStatement s = .returnStatement t) ∨
      (∃ t, getSimpleExitStatement s = .throwStatement t) ∨
      (∃ e, getSimpleExitStatement s = .expressionStatement e) := by
    intro n
    induction n with
    | zero =>
        intro s hs
        have := one_le_sizeOf_statement s
        omega
    | succ n ih =>
        intro s hs hexit
        match s with
        | .returnStatement t => exact Or.inl ⟨t, rfl⟩
        | .throwStatement t => exact Or.inr (Or.inl ⟨t, rfl⟩)
        | .expressionStatement e => exact Or.inr (Or.inr ⟨e, rfl⟩)
        | .blockStatement [] => simp [isSimpleExit] at hexit
        | .blockStatement [u] =>
            have hu : isSimpleExit u = true := by
              simpa [isSimpleExit] using hexit
            have hsz : sizeOf u ≤ n := by
              simp_arith at hs
              omega
            have h3 := ih u hsz hu
            simpa [getSimpleExitStatement] using h3
        | .blockStatement (a :: b :: r) => simp [isSimpleExit] at hexit
        | .ifStatement t c a => simp [isSimpleExit] at hexit
        | .functionDeclaration h b => simp [isSimpleExit] at hexit
        | .otherStatement t => simp [isSimpleExit] at hexit
  exact fun s => H (sizeOf s) s le_rfl

/-- The statement form of the emitted guard exit is a return or a
throw statement. -/
lemma structuralExit_shape (s : Statement) (h : isSimpleExit s = true) :
    (∃ t, structuralExit s = .returnStatement t) ∨
    (∃ t, structuralExit s = .throwStatement t) := by
  rcases getSimpleExitStatement_shape s h with ⟨t, ht⟩ | ⟨t, ht⟩ | ⟨e, he⟩
  · exact Or.inl ⟨t, by simp [structuralExit, ht]⟩
  · exact Or.inr ⟨t, by simp [structuralExit, ht]⟩
  · exact Or.inl ⟨"return " ++ e.getText ++ ";", by simp [structuralExit, he]⟩

/-- A guard statement produced by the Pattern A branch never matches
the detector, whatever the parent. -/
lemma guardSafeA (x : Expression) (alt : Statement) (h : isSimpleExit alt = true)
    (p : ParentNode) :
    shouldReportEarlyReturn (.ifStatement x (structuralExit alt) none) p = false := by
  apply detFalse_noNested
  rcases structuralExit_shape alt h with ⟨t, ht⟩ | ⟨t, ht⟩ <;>
    simp [ht, getBlockStatements, Statement.isNestedIfElseExit]

/-- A guard statement produced by the Pattern B branch never matches
the detector, whatever the parent. -/
lemma guardSafeB (x : Expression) (p : ParentNode) :
    shouldReportEarlyReturn (.ifStatement x (.returnStatement "return;") none) p = false := by
  apply detFalse_noNested
  simp [getBlockStatements, Statement.isNestedIfElseExit]

/-- A statement re-emitted verbatim by the Pattern A consequent loop
never matches the detector, whatever the parent. -/
lemma reemitSafeA (stmt : Statement) (h1 : stmt.isNestedIfElseExit = false)
    (h2 : stmt.isIfNoAltWithNestedExit = false) (p : ParentNode) :
    shouldReportEarlyReturn stmt p = false := by
  match stmt with
  | .ifStatement t c (some a) =>
      exact detFalse_altNotExit t c a p
        (by simpa [Statement.isNestedIfElseExit] using h1)
  | .ifStatement t c none =>
      exact detFalse_noNested t c p
        (by simpa [Statement.isIfNoAltWithNestedExit] using h2)
  | .returnStatement t => exact detFalse_nonIf _ p (by simp [Statement.isIfStmt])
  | .throwStatement t => exact detFalse_nonIf _ p (by simp [Statement.isIfStmt])
  | .expressionStatement e => exact detFalse_nonIf _ p (by simp [Statement.isIfStmt])
  | .blockStatement b => exact detFalse_nonIf _ p (by simp [Statement.isIfStmt])
  | .functionDeclaration h b => exact detFalse_nonIf _ p (by simp [Statement.isIfStmt])
  | .otherStatement t => exact detFalse_nonIf _ p (by simp [Statement.isIfStmt])

/-- A statement re-emitted verbatim by the Pattern B consequent loop
never matches the detector, whatever the parent. -/
lemma reemitSafeB (stmt : Statement) (h1 : stmt.isNestedIfElseExit = false)
    (h2 : stmt.isIfWithNestedExit = false) (p : ParentNode) :
    shouldReportEarlyReturn stmt p = false := by
  match stmt with
  | .ifStatement t c (some a) =>
      exact detFalse_altNotExit t c a p
        (by simpa [Statement.isNestedIfElseExit] using h1)
  | .ifStatement t c none =>
      exact detFalse_noNested t c p
        (by simpa [Statement.isIfWithNestedExit] using h2)
  | .returnStatement t => exact detFalse_nonIf _ p (by simp [Statement.isIfStmt])
  | .throwStatement t => exact detFalse_nonIf _ p (by simp [Statement.isIfStmt])
  | .expressionStatement e => exact detFalse_nonIf _ p (by simp [Statement.isIfStmt])
  | .blockStatement b => exact detFalse_nonIf _ p (by simp [Statement.isIfStmt])
  | .functionDeclaration h b => exact detFalse_nonIf _ p (by simp [Statement.isIfStmt])
  | .otherStatement t => exact detFalse_nonIf _ p (by simp [Statement.isIfStmt])

/-- The statements of a consequent are smaller than the if statement
holding the consequent. -/
lemma gbs_lt_ifStatement (test : Expression) (consequent : Statement)
    (a : Option Statement) :
    sizeOf (getBlockStatements consequent) <
      sizeOf (Statement.ifStatement test consequent a) := by
  have h1 := sizeOf_getBlockStatements_le consequent
  have h2 := one_le_sizeOf_expression test
  cases a <;> simp_arith <;> omega

/-- No statement of the structural rewrite output matches the
detector, under any parent: the guards have exit-only consequents,
the recursively flattened parts satisfy this recursively, and the
re-emitted statements were exactly those rejected for shape. -/
lemma flattenStructuralSafeAux : ∀ n : Nat,
    (∀ node : Statement, sizeOf node ≤ n →
      ∀ s ∈ flattenStructural node, ∀ p, shouldReportEarlyReturn s p = false) ∧
    (∀ l : List Statement, sizeOf l ≤ n →
      ∀ s ∈ processStructuralA l, ∀ p, shouldReportEarlyReturn s p = false) ∧
    (∀ l : List Statement, sizeOf l ≤ n →
      ∀ s ∈ processStructuralB l, ∀ p, shouldReportEarlyReturn s p = false) := by
  intro n
  induction n using Nat.strong_induction_on with
  | _ n ih =>
  refine ⟨?_, ?_, ?_⟩
  · intro node hn s hs p
    match node with
    | .ifStatement test consequent (some alternate) =>
        by_cases ha : isSimpleExit alternate
        · simp only [flattenStructural, ha, if_true, List.mem_cons] at hs
          rcases hs with rfl | hs
          · exact guardSafeA _ alternate ha p
          · have hm := gbs_lt_ifStatement test consequent (some alternate)
            exact (ih (sizeOf (getBlockStatements consequent)) (by omega)).2.1
              (getBlockStatements consequent) le_rfl s hs p
        · simp [flattenStructural, ha] at hs
    | .ifStatement test consequent none =>
        cases hf : (getBlockStatements consequent).find? Statement.isNestedIfElseExit with
        | none => simp [flattenStructural, hf] at hs
        | some w =>
            simp only [flattenStructural, hf, List.mem_cons] at hs
            rcases hs with rfl | hs
            · exact guardSafeB _ p
            · have hm := gbs_lt_ifStatement test consequent none
              exact (ih (sizeOf (getBlockStatements consequent)) (by omega)).2.2
                (getBlockStatements consequent) le_rfl s hs p
    | .returnStatement t => simp [flattenStructural] at hs
    | .throwStatement t => simp [flattenStructural] at hs
    | .expressionStatement e => simp [flattenStructural] at hs
    | .blockStatement b => simp [flattenStructural] at hs
    | .functionDeclaration h b => simp [flattenStructural] at hs
    | .otherStatement t => simp [flattenStructural] at hs
  · intro l hl s hs p
    match l with
    | [] => simp [processStructuralA] at hs
    | stmt :: rest =>
        simp only [processStructuralA, List.mem_append] at hs
        have hstmt : sizeOf stmt < sizeOf (stmt :: rest) := by simp_arith
        have hrest : sizeOf rest < sizeOf (stmt :: rest) := by simp_arith
        rcases hs with hs | hs
        · by_cases h1 : stmt.isNestedIfElseExit
          · simp only [h1, if_true] at hs
            exact (ih (sizeOf stmt) (by omega)).1 stmt le_rfl s hs p
          · by_cases h2 : stmt.isIfNoAltWithNestedExit
            · simp only [h1, h2, if_false, if_true] at hs
              exact (ih (sizeOf stmt) (by omega)).1 stmt le_rfl s hs p
            · simp [h1, h2] at hs
              subst hs
              exact reemitSafeA s (by simpa using h1) (by simpa using h2) p
        · exact (ih (sizeOf rest) (by omega)).2.1 rest le_rfl s hs p
  · intro l hl s hs p
    match l with
    | [] => simp [processStructuralB] at hs
    | stmt :: rest =>
        simp only [processStructuralB, List.mem_append] at hs
        have hstmt : sizeOf stmt < sizeOf (stmt :: rest) := by simp_arith
        have hrest : sizeOf rest < sizeOf (stmt :: rest) := by simp_arith
        rcases hs with hs | hs
        · by_cases h1 : stmt.isNestedIfElseExit
          · simp only [h1, if_true] at hs
            exact (ih (sizeOf stmt) (by omega)).1 stmt le_rfl s hs p
          · by_cases h2 : stmt.isIfWithNestedExit
            · simp only [h1, h2, if_false, if_true] at hs
              exact (ih (sizeOf stmt) (by omega)).1 stmt le_rfl s hs p
            · simp [h1, h2] at hs
              subst hs
              exact reemitSafeB s (by simpa using h1) (by simpa using h2) p
        · exact (ih (sizeOf rest) (by omega)).2.2 rest le_rfl s hs p

/-- No statement of the structural rewrite output matches the
detector, under any parent. -/
lemma flattenStructuralSafe (node s : Statement) (hs : s ∈ flattenStructural node)
    (p : ParentNode) : shouldReportEarlyReturn s p = false :=
  (flattenStructuralSafeAux (sizeOf node)).1 node le_rfl s hs p

/-- Every if statement collected by the restricted walk (which does
not enter nested function-declaration bodies), and every if
statement of a block whose grandparent is not function-like, is
rejected by the detector: its recorded parent context fails the
scope eligibility check. -/
lemma collectOwnSafeAux : ∀ n : Nat,
    (∀ (body : List Statement) (g : String), 2 * sizeOf body + 1 ≤ n →
      isFunctionNode g = false → g ≠ "MethodDefinition" →
      ∀ pr ∈ collectOwnIfsInBlockBody body g, shouldReportEarlyReturn pr.1 pr.2 = false) ∧
    (∀ (l body : List Statement) (g : String), 2 * sizeOf l ≤ n →
      isFunctionNode g = false → g ≠ "MethodDefinition" →
      ∀ pr ∈ collectOwnIfsInStmts l body g, shouldReportEarlyReturn pr.1 pr.2 = false) ∧
    (∀ s : Statement, 2 * sizeOf s ≤ n →
      ∀ pr ∈ collectOwnIfsInStmt s, shouldReportEarlyReturn pr.1 pr.2 = false) ∧
    (∀ (s : Statement) (pt : String), 2 * sizeOf s + 1 ≤ n →
      isFunctionNode pt = false → pt ≠ "MethodDefinition" →
      ∀ pr ∈ collectOwnIfsInChild s pt, shouldReportEarlyReturn pr.1 pr.2 = false) := by
  intro n
  induction n using Nat.strong_induction_on with
  | _ n ih =>
  refine ⟨?_, ?_, ?_, ?_⟩
  · intro body g hb hg1 hg2 pr hpr
    simp only [collectOwnIfsInBlockBody] at hpr
    exact (ih (2 * sizeOf body) (by omega)).2.1 body body g le_rfl hg1 hg2 pr hpr
  · intro l body g hleq hg1 hg2 pr hpr
    match l with
    | [] => simp [collectOwnIfsInStmts] at hpr
    | s :: rest =>
        have hsz : sizeOf (s :: rest) = 1 + sizeOf s + sizeOf rest := by simp_arith
        simp only [collectOwnIfsInStmts, List.mem_append] at hpr
        rcases hpr with (hpr | hpr) | hpr
        · by_cases hIf : s.isIfStmt
          · simp only [hIf, if_true, List.mem_singleton] at hpr
            subst hpr
            exact detFalse_grandParentNotFunction s body g hg1 hg2
          · simp [hIf] at hpr
        · exact (ih (2 * sizeOf s) (by omega)).2.2.1 s le_rfl pr hpr
        · exact (ih (2 * sizeOf rest) (by omega)).2.1 rest body g le_rfl hg1 hg2 pr hpr
  · intro s hs pr hpr
    match s with
    | .blockStatement body =>
        have hsz : sizeOf (Statement.blockStatement body) = 1 + sizeOf body := by simp_arith
        simp only [collectOwnIfsInStmt] at hpr
        exact (ih (2 * sizeOf body + 1) (by omega)).1 body "BlockStatement" le_rfl
          (by decide) (by decide) pr hpr
    | .ifStatement t c none =>
        have ht := one_le_sizeOf_expression t
        have hsz : sizeOf (Statement.ifStatement t c none) =
            1 + sizeOf t + sizeOf c + 1 := by simp_arith
        simp only [collectOwnIfsInStmt, List.append_nil] at hpr
        exact (ih (2 * sizeOf c + 1) (by omega)).2.2.2 c "IfStatement" le_rfl
          (by decide) (by decide) pr hpr
    | .ifStatement t c (some x) =>
        have ht := one_le_sizeOf_expression t
        have hsz : sizeOf (Statement.ifStatement t c (some x)) =
            1 + sizeOf t + sizeOf c + (1 + sizeOf x) := by simp_arith
        simp only [collectOwnIfsInStmt, List.mem_append] at hpr
        rcases hpr with hpr | hpr
        · exact (ih (2 * sizeOf c + 1) (by omega)).2.2.2 c "IfStatement" le_rfl
            (by decide) (by decide) pr hpr
        · exact (ih (2 * sizeOf x + 1) (by omega)).2.2.2 x "IfStatement" le_rfl
            (by decide) (by decide) pr hpr
    | .returnStatement t => simp [collectOwnIfsInStmt] at hpr
    | .throwStatement t => simp [collectOwnIfsInStmt] at hpr
    | .expressionStatement e => simp [collectOwnIfsInStmt] at hpr
    | .functionDeclaration h b => simp [collectOwnIfsInStmt] at hpr
    | .otherStatement t => simp [collectOwnIfsInStmt] at hpr
  · intro s pt hs hp1 hp2 pr hpr
    match s with
    | .blockStatement body =>
        have hsz : sizeOf (Statement.blockStatement body) = 1 + sizeOf body := by simp_arith
        simp only [collectOwnIfsInChild] at hpr
        exact (ih (2 * sizeOf body + 1) (by omega)).1 body pt le_rfl hp1 hp2 pr hpr
    | .ifStatement t c a =>
        simp only [collectOwnIfsInChild, List.mem_cons] at hpr
        rcases hpr with rfl | hpr
        · exact detFalse_parentNotBlock _ pt
        · exact (ih (2 * sizeOf (Statement.ifStatement t c a)) (by omega)).2.2.1
            (Statement.ifStatement t c a) le_rfl pr hpr
    | .returnStatement t => simp [collectOwnIfsInChild] at hpr
    | .throwStatement t => simp [collectOwnIfsInChild] at hpr
    | .expressionStatement e => simp [collectOwnIfsInChild] at hpr
    | .functionDeclaration h b => simp [collectOwnIfsInChild] at hpr
    | .otherStatement t => simp [collectOwnIfsInChild] at hpr

/-- Every if statement of the restricted walk strictly inside a
statement is rejected by the detector. -/
lemma collectOwnIfsInStmtSafe (s : Statement) (pr : Statement × ParentNode)
    (hpr : pr ∈ collectOwnIfsInStmt s) : shouldReportEarlyReturn pr.1 pr.2 = false :=
  (collectOwnSafeAux (2 * sizeOf s)).2.2.1 s le_rfl pr hpr

/-- Decomposition of the restricted collected pairs of a block: each
is either a top-level if statement of the body paired with the block
parent, or comes from strictly inside one of the statements of the
body. -/
lemma mem_collectOwnIfsInStmts : ∀ (l body : List Statement) (g : String)
    (pr : Statement × ParentNode), pr ∈ collectOwnIfsInStmts l body g →
    (∃ s ∈ l, pr = (s, ParentNode.blockStatement body g)) ∨
    (∃ s ∈ l, pr ∈ collectOwnIfsInStmt s) := by
  intro l
  induction l with
  | nil =>
      intro body g pr hpr
      simp [collectOwnIfsInStmts] at hpr
  | cons s rest ih =>
      intro body g pr hpr
      simp only [collectOwnIfsInStmts, List.mem_append] at hpr
      rcases hpr with (hpr | hpr) | hpr
      · by_cases hIf : s.isIfStmt
        · simp only [hIf, if_true, List.mem_singleton] at hpr
          exact Or.inl ⟨s, List.mem_cons_self s rest, hpr⟩
        · simp [hIf] at hpr
      · exact Or.inr ⟨s, List.mem_cons_self s rest, hpr⟩
      · rcases ih body g pr hpr with ⟨u, hu, he⟩ | ⟨u, hu, he⟩
        · exact Or.inl ⟨u, List.mem_cons_of_mem s hu, he⟩
        · exact Or.inr ⟨u, List.mem_cons_of_mem s hu, he⟩

/-!
Claim theorems: normal form of the rewrite output.
-/

/-- Counterexample to C9 as stated: a detector-matched node whose
consequent holds a function declaration re-emitted verbatim by the
rewriter; re-running the detector over every conditional of the
rewritten code matches the conditional inside that function body
(its parent there is the function body block, its grandparent the
function declaration, and it has the Pattern A shape), so the
rewritten code is not free of matches. -/
theorem C9_rewriteNormalForm_counterexample :
    shouldReportEarlyReturn exampleNestedFnNode
        (.blockStatement [exampleNestedFnNode] "FunctionDeclaration") = true ∧
    nestedFunctionDecl ∈ flattenStructural exampleNestedFnNode ∧
    (nestedFunctionIf,
        ParentNode.blockStatement [nestedFunctionIf] "FunctionDeclaration") ∈
      collectIfsInBlockBody (flattenStructural exampleNestedFnNode)
        "FunctionDeclaration" ∧
    shouldReportEarlyReturn nestedFunctionIf
      (ParentNode.blockStatement [nestedFunctionIf] "FunctionDeclaration") = true := by
  refine ⟨by decide, ?_, ?_, by decide⟩ <;>
    simp [exampleNestedFnNode, nestedFunctionDecl, nestedFunctionIf,
      flattenStructural, processStructuralA, processStructuralB, structuralExit,
      getSimpleExitStatement, getBlockStatements, isSimpleExit,
      Statement.isNestedIfElseExit, Statement.isIfNoAltWithNestedExit,
      Statement.isIfWithNestedExit, Statement.isIfStmt, invertCondition,
      Expression.getText, collectIfsInBlockBody, collectIfsInStmts,
      collectIfsInside, collectIfsInChild]

/-- C9 as amended: after rewriting a detector-matched node,
re-running the detector over every conditional of the rewritten
statements yields no match, except possibly inside the bodies of
function-like declaration statements that the rewriter copied
verbatim into the output (such a body is unchanged source text, and
any match inside it was already present before the rewrite).  The
restricted walk collects every conditional of the rewritten code
outside such verbatim-copied function bodies, with the parent
context it has in the rewritten code, whatever grandparent the
rewritten block itself hangs from. -/
theorem C9_rewriteNormalForm_amended (node : Statement) (parent : ParentNode)
    (_detected : shouldReportEarlyReturn node parent = true) :
    ∀ (grandParentType : String) (pr : Statement × ParentNode),
      pr ∈ collectOwnIfsInBlockBody (flattenStructural node) grandParentType →
      shouldReportEarlyReturn pr.1 pr.2 = false := by
  intro g pr hpr
  simp only [collectOwnIfsInBlockBody] at hpr
  rcases mem_collectOwnIfsInStmts _ _ _ _ hpr with ⟨s, hs, rfl⟩ | ⟨s, hs, hin⟩
  · exact flattenStructuralSafe node s hs _
  · exact collectOwnIfsInStmtSafe s pr hin

/-- Witness for the amended C9: the scenario one node is
detector-matched, and no conditional of its rewritten form outside
verbatim-copied function bodies matches the detector again. -/
theorem C9_rewriteNormalForm_amended_witness :
    shouldReportEarlyReturn exampleOneNode
        (.blockStatement [exampleOneNode] "FunctionDeclaration") = true ∧
    ∀ pr ∈ collectOwnIfsInBlockBody (flattenStructural exampleOneNode)
        "FunctionDeclaration",
      shouldReportEarlyReturn pr.1 pr.2 = false :=
  ⟨by decide,
    C9_rewriteNormalForm_amended exampleOneNode
      (.blockStatement [exampleOneNode] "FunctionDeclaration") (by decide)
      "FunctionDeclaration"⟩

/-- Witness for C1: the detector equation evaluated on the scenario
one node inside a function body. -/
theorem C1_detectorPatternA_witness :
    shouldReportEarlyReturn
      (.ifStatement (.identifier "a")
        (.blockStatement
          [.ifStatement (.identifier "b")
            (.blockStatement [.expressionStatement (.callExpression "x()")])
            (some (.blockStatement [.returnStatement "return 1;"]))])
        (some (.blockStatement [.returnStatement "return 2;"])))
      (.blockStatement [exampleOneNode] "FunctionExpression") =
      (isDirectlyInFunctionBody (.blockStatement [exampleOneNode] "FunctionExpression") &&
        isLastStatementInBlock
          (.ifStatement (.identifier "a")
            (.blockStatement
              [.ifStatement (.identifier "b")
                (.blockStatement [.expressionStatement (.callExpression "x()")])
                (some (.blockStatement [.returnStatement "return 1;"]))])
            (some (.blockStatement [.returnStatement "return 2;"])))
          (.blockStatement [exampleOneNode] "FunctionExpression") &&
        isSimpleExit (.blockStatement [.returnStatement "return 2;"]) &&
        hasNestedIfInConsequent
          (.blockStatement
            [.ifStatement (.identifier "b")
              (.blockStatement [.expressionStatement (.callExpression "x()")])
              (some (.blockStatement [.returnStatement "return 1;"]))])) :=
  C1_detectorPatternA (.identifier "a")
    (.blockStatement
      [.ifStatement (.identifier "b")
        (.blockStatement [.expressionStatement (.callExpression "x()")])
        (some (.blockStatement [.returnStatement "return 1;"]))])
    (.blockStatement [.returnStatement "return 2;"])
    (.blockStatement [exampleOneNode] "FunctionExpression")

/-- Witness for C2: the detector equation evaluated on a Pattern B
node inside a method body. -/
theorem C2_detectorPatternB_witness :
    shouldReportEarlyReturn
      (.ifStatement (.identifier "user")
        (.blockStatement
          [.ifStatement (.identifier "order")
            (.blockStatement [.expressionStatement (.callExpression "process()")])
            (some (.returnStatement "return null;"))])
        none)
      (.blockStatement [] "MethodDefinition") =
      (isDirectlyInFunctionBody (.blockStatement [] "MethodDefinition") &&
        isLastStatementInBlock
          (.ifStatement (.identifier "user")
            (.blockStatement
              [.ifStatement (.identifier "order")
                (.blockStatement [.expressionStatement (.callExpression "process()")])
                (some (.returnStatement "return null;"))])
            none)
          (.blockStatement [] "MethodDefinition") &&
        (getBlockStatements
          (.blockStatement
            [.ifStatement (.identifier "order")
              (.blockStatement [.expressionStatement (.callExpression "process()")])
              (some (.returnStatement "return null;"))])).any
          Statement.isNestedIfElseExit) :=
  C2_detectorPatternB.1 (.identifier "user")
    (.blockStatement
      [.ifStatement (.identifier "order")
        (.blockStatement [.expressionStatement (.callExpression "process()")])
        (some (.returnStatement "return null;"))])
    (.blockStatement [] "MethodDefinition")

/-- Witness for C5: a one-statement block around a throw statement is
exit-classified through the characterization. -/
theorem C5_isSimpleExitCharacterization_witness :
    isSimpleExit (.blockStatement [.throwStatement "throw err;"]) = true :=
  (C5_isSimpleExitCharacterization.1 (.blockStatement [.throwStatement "throw err;"])).mpr
    (Or.inr (Or.inr (Or.inr ⟨.throwStatement "throw err;", rfl, rfl⟩)))
